import Mathlib

/-!
Verification development for the mlpack command-line front ends
`allknn_main.cpp` and `fastmks_main.cpp`.

The two `main` functions are pure dispatchers: they validate the
command-line configuration, build the requested spatial trees, run the
search, remap indices and save the output.  We embed each `main` as a
function from the parsed options and the loaded dataset shapes to an
`Outcome` record describing the observable control flow: which fatal
check fired (if any), which warnings were logged, how many trees were
built and with which cover-tree base, which search mode ran, whether the
reference set served as its own query set, which index-remapping variant
was applied, and (for naive mode) which query x reference pairs were
evaluated.

Matrix contents never influence this control flow - only the shapes
(`n_rows`, `n_cols`, `n_elem`) do - so datasets are embedded by their
shapes.  The bodies of `NeighborSearch::Search` and `FastMKS::Search`
live in headers that are not part of this repository; the two behaviours
of theirs that the specification relies on (the query/reference
dimensionality check and naive-mode all-pairs evaluation) are modelled
from the specification and clearly marked as such.
-/

/-- Which fatal (`Log::Fatal`) check aborted the program, if any. -/
inductive FatalKind
  | invalidK
  | invalidLeafSize
  | invalidKernel
  | dimMismatch
  deriving Repr, DecidableEq

/-- Which non-fatal (`Log::Warn`) message was logged. -/
inductive WarnKind
  /-- allknn_main.cpp line 126: "--single_mode ignored because --naive is present." -/
  | singleModeIgnored
  /-- allknn_main.cpp line 132: "--cover_tree overrides --r_tree." -/
  | coverOverridesR
  /-- fastmks_main.cpp line 217: "--single ignored because --naive is present." -/
  | singleIgnored
  deriving Repr, DecidableEq

/-- Which overload of `Unmap` (unmap.hpp) the kd-tree path of allknn applied. -/
inductive UnmapCase
  /-- `Unmap(neighborsOut, distancesOut, oldFromNewRefs, oldFromNewQueries, ...)`:
  both the reference and the query permutation maps (allknn_main.cpp 245-246). -/
  | refAndQuery
  /-- `Unmap(neighborsOut, distancesOut, oldFromNewRefs, ...)`: the reference
  permutation map only (allknn_main.cpp 248). -/
  | refOnly
  /-- `Unmap(neighborsOut, distancesOut, oldFromNewRefs, oldFromNewRefs, ...)`:
  the reference permutation map on both sides (allknn_main.cpp 250-251). -/
  | refBothSides
  deriving Repr, DecidableEq

/-- The search mode that actually ran. -/
inductive Mode
  | naive
  | single
  | dual
  deriving Repr, DecidableEq

/-- Which `RunFastMKS<KernelType>` instantiation the fastmks else-if chain selected. -/
inductive KernelBranch
  | linear
  | polynomial
  | cosine
  | gaussian
  | epanechnikov
  | triangular
  | hyptan
  deriving Repr, DecidableEq

/-- Observable control flow of one invocation of a front-end `main`. -/
structure Outcome where
  /-- The first `Log::Fatal` check that fired, `none` when the program ran through. -/
  fatal : Option FatalKind := none
  /-- The `Log::Warn` messages logged, in program order. -/
  warnings : List WarnKind := []
  /-- Number of spatial trees constructed by `main` (query tree included). -/
  treesBuilt : Nat := 0
  /-- The base the cover tree(s) were constructed with, when a cover tree was built. -/
  coverBase : Option Rat := none
  /-- True when the search object was constructed directly from the raw point
  matrix (`AllkNN allknn(referenceData, false, naive)` /
  `FastMKS<...> fastmks(referenceData, kernel, false, naive)`). -/
  searchFromRawMatrix : Bool := false
  /-- The mode of the search that ran. -/
  mode : Option Mode := none
  /-- True when the reference set was searched against itself. -/
  selfQuery : Bool := false
  /-- The `Unmap` overload applied to the results, `none` when none was. -/
  unmap : Option UnmapCase := none
  /-- The kernel branch taken by fastmks, `none` when no branch matched. -/
  kernelBranch : Option KernelBranch := none
  /-- True when a `Search` call ran to completion and produced results. -/
  searched : Bool := false
  /-- In naive mode, the query x reference index pairs evaluated directly. -/
  evaluatedPairs : Option (List (Nat × Nat)) := none
  deriving Repr, DecidableEq

/-- Modelled from the spec: the `Search` members of `NeighborSearch` and
`FastMKS` (implemented in neighbor_search.hpp / fastmks.hpp, headers that are
not part of this repository) reject, before performing any search, a query set
whose dimensionality (row count) differs from the reference set's:
"ConfigurationError - ... dimension mismatch between query and reference
sets ...; surfaced immediately, no ... result" (spec section 7). -/
def searchDimMismatch (refRows queryRows : Nat) : Bool :=
  queryRows != refRows

/-- Modelled from the spec: in naive mode the engine "skip[s] index
construction entirely and evaluate[s] all query x reference pairs directly"
(spec section 4.4); the `Search` implementation is not part of this
repository.  The pair `(i, j)` stands for query column `i` paired with
reference column `j`. -/
def naivePairs (nQueries nRefs : Nat) : List (Nat × Nat) :=
  (List.range nQueries).flatMap (fun i => (List.range nRefs).map (fun j => (i, j)))

namespace Allknn

/-- The command-line options of allknn_main.cpp after parsing.  `k` is read
into a `size_t` (a negative `--k` wraps to a huge unsigned value, so `Nat`
is the faithful carrier); `leaf_size` stays a signed `int` until its sanity
check.  `hasQueryFile` stands for a (non-empty) `--query_file` argument. -/
structure Options where
  k : Nat
  leafSize : Int
  naive : Bool
  singleMode : Bool
  coverTree : Bool
  rTree : Bool
  randomBasis : Bool
  hasQueryFile : Bool
  deriving Repr, DecidableEq

/-- Shapes of the loaded datasets.  `queryRows`/`queryCols` describe the
matrix loaded from `--query_file` and are meaningless when no query file was
given (the C++ `queryData` then stays 0 x 0). -/
structure Datasets where
  refRows : Nat
  refCols : Nat
  queryRows : Nat
  queryCols : Nat
  deriving Repr, DecidableEq

/-- Number of query points of the search that runs: the query set's columns
with a query file, otherwise the reference set's own columns. -/
def numQueries (o : Options) (d : Datasets) : Nat :=
  if o.hasQueryFile then d.queryCols else d.refCols

/-- The warnings logged at allknn_main.cpp lines 123-133, in program order:
"--single_mode ignored because --naive is present." and
"--cover_tree overrides --r_tree.". -/
def loggedWarnings (o : Options) : List WarnKind :=
  (if o.singleMode && o.naive then [.singleModeIgnored] else []) ++
  (if o.coverTree && o.rTree then [.coverOverridesR] else [])

/-- Embedding of `main` of allknn_main.cpp (lines 67-352) as a function from
options and dataset shapes to the observable outcome.  The random-basis
rotation (lines 136-170) multiplies the data by a square orthogonal matrix:
it changes no shape, no index and no control-flow decision, so it leaves the
outcome untouched and is not re-modelled here; seeding (lines 72-75) and file
I/O likewise.  The tree constructors themselves (`KDTree`, `RStarTree`,
`StandardCoverTree`) are implemented outside this repository: per the spec
(sections 4.1 and 7b) construction fails fatally exactly on malformed input,
in particular an empty point set, so the tree-building branches of this
embedding describe invocations whose point sets are non-empty and are not
used to settle behaviour at an empty point set; the naive branch builds no
tree at all (spec section 4.4, and visibly in lines 175-183) and carries no
such proviso. -/
def main (o : Options) (d : Datasets) : Outcome :=
  -- Lines 106-113: sanity check on k ("Since it is unsigned, we only test
  -- the upper bound": the code compares k > referenceData.n_cols only).
  if o.k > d.refCols then
    { fatal := some .invalidK }
  -- Lines 115-120: sanity check on leaf size.
  else if o.leafSize < 1 then
    { fatal := some .invalidLeafSize }
  else
    -- Lines 123-133: the two warnings.
    let warns : List WarnKind := loggedWarnings o
    -- Lines 175-183: naive mode.
    if o.naive then
      if o.hasQueryFile then
        if searchDimMismatch d.refRows d.queryRows then
          { fatal := some .dimMismatch, warnings := warns, searchFromRawMatrix := true }
        else
          { warnings := warns, searchFromRawMatrix := true, mode := some .naive,
            searched := true,
            evaluatedPairs := some (naivePairs d.queryCols d.refCols) }
      else
        { warnings := warns, searchFromRawMatrix := true, mode := some .naive,
          selfQuery := true, searched := true,
          evaluatedPairs := some (naivePairs d.refCols d.refCols) }
    else if !o.coverTree then
      if !o.rTree then
        -- Lines 186-251: the kd-tree path, the only one that unmaps.
        if o.hasQueryFile then
          if !o.singleMode then
            if searchDimMismatch d.refRows d.queryRows then
              { fatal := some .dimMismatch, warnings := warns, treesBuilt := 2 }
            else
              { warnings := warns, treesBuilt := 2, mode := some .dual,
                searched := true, unmap := some .refAndQuery }
          else
            if searchDimMismatch d.refRows d.queryRows then
              { fatal := some .dimMismatch, warnings := warns, treesBuilt := 1 }
            else
              { warnings := warns, treesBuilt := 1, mode := some .single,
                searched := true, unmap := some .refOnly }
        else
          { warnings := warns, treesBuilt := 1,
            mode := some (if o.singleMode then .single else .dual),
            selfQuery := true, searched := true, unmap := some .refBothSides }
      else
        -- Lines 253-299: the R*-tree path; results are saved directly.
        if o.hasQueryFile then
          if !o.singleMode then
            if searchDimMismatch d.refRows d.queryRows then
              { fatal := some .dimMismatch, warnings := warns, treesBuilt := 2 }
            else
              { warnings := warns, treesBuilt := 2, mode := some .dual,
                searched := true }
          else
            if searchDimMismatch d.refRows d.queryRows then
              { fatal := some .dimMismatch, warnings := warns, treesBuilt := 1 }
            else
              { warnings := warns, treesBuilt := 1, mode := some .single,
                searched := true }
        else
          { warnings := warns, treesBuilt := 1,
            mode := some (if o.singleMode then .single else .dual),
            selfQuery := true, searched := true }
    else
      -- Lines 301-347: the cover-tree path; `TreeType refTree(referenceData,
      -- 1.3)` hard-codes the base 1.3, and results are saved directly.
      if o.hasQueryFile then
        if !o.singleMode then
          if searchDimMismatch d.refRows d.queryRows then
            { fatal := some .dimMismatch, warnings := warns, treesBuilt := 2,
              coverBase := some (1.3 : Rat) }
          else
            { warnings := warns, treesBuilt := 2, coverBase := some (1.3 : Rat),
              mode := some .dual, searched := true }
        else
          if searchDimMismatch d.refRows d.queryRows then
            { fatal := some .dimMismatch, warnings := warns, treesBuilt := 1,
              coverBase := some (1.3 : Rat) }
          else
            { warnings := warns, treesBuilt := 1, coverBase := some (1.3 : Rat),
              mode := some .single, searched := true }
      else
        { warnings := warns, treesBuilt := 1, coverBase := some (1.3 : Rat),
          mode := some (if o.singleMode then .single else .dual),
          selfQuery := true, searched := true }

end Allknn

namespace Fastmks

/-- The command-line options of fastmks_main.cpp after parsing.  `k` is read
into a `size_t` (`Nat`); `base`, `degree`, `offset`, `bandwidth` and `scale`
are `double` parameters, carried as exact rationals since only `base` is
observable in the modelled control flow and only ever compared, never rounded.
`hasQueryFile` stands for a `--query_file` argument being present. -/
structure Options where
  k : Nat
  naive : Bool
  single : Bool
  base : Rat
  kernel : String
  degree : Rat
  offset : Rat
  bandwidth : Rat
  scale : Rat
  hasQueryFile : Bool
  deriving Repr, DecidableEq

/-- Shapes of the loaded datasets; `queryRows`/`queryCols` describe the matrix
loaded from `--query_file` and are meaningless when no query file was given
(the C++ `queryData` then stays 0 x 0). -/
structure Datasets where
  refRows : Nat
  refCols : Nat
  queryRows : Nat
  queryCols : Nat
  deriving Repr, DecidableEq

/-- Default of `PARAM_DOUBLE("base", "Base to use during cover tree
construction.", "b", 2.0)` (fastmks_main.cpp line 61). -/
def defaultBase : Rat := 2.0

/-- The kernel-name validation of fastmks_main.cpp lines 189-197: the boolean
condition under which `Log::Fatal << "Invalid kernel type ..."` fires.  Note
the list also admits "graph", "approxGraph" and "inv-mq". -/
def kernelCheckFatal (kernelType : String) : Bool :=
  (kernelType != "linear") && (kernelType != "polynomial") &&
  (kernelType != "cosine") && (kernelType != "gaussian") &&
  (kernelType != "graph") && (kernelType != "approxGraph") &&
  (kernelType != "triangular") && (kernelType != "hyptan") &&
  (kernelType != "inv-mq") && (kernelType != "epanechnikov")

/-- The else-if chain over `kernelType` (fastmks_main.cpp lines 227-269 and
identically 273-314) selecting which `RunFastMKS<KernelType>` instantiation
runs; `none` when no branch matches. -/
def dispatch (kernelType : String) : Option KernelBranch :=
  if kernelType == "linear" then some .linear
  else if kernelType == "polynomial" then some .polynomial
  else if kernelType == "cosine" then some .cosine
  else if kernelType == "gaussian" then some .gaussian
  else if kernelType == "epanechnikov" then some .epanechnikov
  else if kernelType == "triangular" then some .triangular
  else if kernelType == "hyptan" then some .hyptan
  else none

/-- The warning logged at fastmks_main.cpp lines 214-218:
"--single ignored because --naive is present.". -/
def loggedWarnings (o : Options) : List WarnKind :=
  if o.naive && o.single then [.singleIgnored] else []

/-- `n_elem` of the `queryData` matrix at line 225: the product of its shape
when a query file was loaded, otherwise 0 (the matrix was never touched). -/
def effectiveQueryElems (o : Options) (d : Datasets) : Nat :=
  if o.hasQueryFile then d.queryRows * d.queryCols else 0

/-- Number of query points of the search that runs (line 225 decides). -/
def numQueries (o : Options) (d : Datasets) : Nat :=
  if effectiveQueryElems o d == 0 then d.refCols else d.queryCols

/-- Embedding of the single-dataset overload `RunFastMKS` (fastmks_main.cpp
lines 71-102): naive mode builds the `FastMKS` object straight from the
matrix, otherwise one cover tree is built with the given base. -/
def RunFastMKSSelf (br : KernelBranch) (refCols : Nat) (single naive : Bool)
    (base : Rat) (warns : List WarnKind) : Outcome :=
  if naive then
    { warnings := warns, kernelBranch := some br, searchFromRawMatrix := true,
      mode := some .naive, selfQuery := true, searched := true,
      evaluatedPairs := some (naivePairs refCols refCols) }
  else
    { warnings := warns, kernelBranch := some br, treesBuilt := 1,
      coverBase := some base, mode := some (if single then .single else .dual),
      selfQuery := true, searched := true }

/-- Embedding of the query-and-reference overload `RunFastMKS`
(fastmks_main.cpp lines 104-145): naive mode builds the `FastMKS` object
straight from the matrix; otherwise the reference cover tree is built with
the given base, and dual-tree mode builds a query cover tree as well.  The
query/reference dimensionality check of `FastMKS::Search` is modelled by
`searchDimMismatch`. -/
def RunFastMKSQuery (br : KernelBranch) (refRows refCols queryRows queryCols : Nat)
    (single naive : Bool) (base : Rat) (warns : List WarnKind) : Outcome :=
  if naive then
    if searchDimMismatch refRows queryRows then
      { fatal := some .dimMismatch, warnings := warns, kernelBranch := some br,
        searchFromRawMatrix := true }
    else
      { warnings := warns, kernelBranch := some br, searchFromRawMatrix := true,
        mode := some .naive, searched := true,
        evaluatedPairs := some (naivePairs queryCols refCols) }
  else if single then
    if searchDimMismatch refRows queryRows then
      { fatal := some .dimMismatch, warnings := warns, kernelBranch := some br,
        treesBuilt := 1, coverBase := some base }
    else
      { warnings := warns, kernelBranch := some br, treesBuilt := 1,
        coverBase := some base, mode := some .single, searched := true }
  else
    if searchDimMismatch refRows queryRows then
      { fatal := some .dimMismatch, warnings := warns, kernelBranch := some br,
        treesBuilt := 2, coverBase := some base }
    else
      { warnings := warns, kernelBranch := some br, treesBuilt := 2,
        coverBase := some base, mode := some .dual, searched := true }

/-- Embedding of `main` of fastmks_main.cpp (lines 147-329) as a function from
options and dataset shapes to the observable outcome.  When the else-if chain
over the kernel name matches no branch, no search runs and the (empty) output
matrices are saved as they are.  The cover-tree constructor used by the
non-naive branches of `RunFastMKS` is implemented outside this repository:
per the spec (sections 4.1 and 7b) construction fails fatally exactly on
malformed input, in particular an empty point set, so those branches of this
embedding describe invocations whose point sets are non-empty and are not
used to settle behaviour at an empty point set; the naive branches build no
tree at all (spec section 4.4, and visibly in lines 82-87 and 116-121) and
carry no such proviso. -/
def main (o : Options) (d : Datasets) : Outcome :=
  -- Lines 180-186: sanity check on k (upper bound only).
  if o.k > d.refCols then
    { fatal := some .invalidK }
  -- Lines 188-197: check on kernel type.
  else if kernelCheckFatal o.kernel then
    { fatal := some .invalidKernel }
  else
    -- Lines 214-218: naive mode overrides single mode.
    let warns : List WarnKind := loggedWarnings o
    -- Line 225: `if (queryData.n_elem == 0)` decides self- vs separate-query;
    -- when no else-if branch matches the kernel name, nothing runs at all.
    if effectiveQueryElems o d == 0 then
      match dispatch o.kernel with
      | some br => RunFastMKSSelf br d.refCols o.single o.naive o.base warns
      | none => { warnings := warns }
    else
      match dispatch o.kernel with
      | some br => RunFastMKSQuery br d.refRows d.refCols d.queryRows d.queryCols
          o.single o.naive o.base warns
      | none => { warnings := warns }

end Fastmks

/-! Concrete invocations used to exercise the embeddings on explicit inputs. -/

/-- allknn invocation `--k 0` with every optional flag off. -/
def allknnKZero : Allknn.Options :=
  { k := 0, leafSize := 20, naive := false, singleMode := false, coverTree := false,
    rTree := false, randomBasis := false, hasQueryFile := false }

/-- allknn invocation `--k 1` with every optional flag off. -/
def allknnKOne : Allknn.Options := { allknnKZero with k := 1 }

/-- allknn invocation `--k 4` with every optional flag off. -/
def allknnKFour : Allknn.Options := { allknnKZero with k := 4 }

/-- allknn invocation `--k 0 --naive`. -/
def allknnNaiveKZero : Allknn.Options := { allknnKZero with naive := true }

/-- allknn invocation `--k 1 --naive`. -/
def allknnNaive : Allknn.Options := { allknnKZero with k := 1, naive := true }

/-- allknn invocation `--k 1 --naive --single_mode`. -/
def allknnNaiveSingle : Allknn.Options :=
  { allknnKZero with k := 1, naive := true, singleMode := true }

/-- allknn invocation `--k 1 --cover_tree`. -/
def allknnCover : Allknn.Options := { allknnKZero with k := 1, coverTree := true }

/-- allknn invocation `--k 1 --query_file ...` (dual-tree, the default). -/
def allknnDualQuery : Allknn.Options := { allknnKZero with k := 1, hasQueryFile := true }

/-- A 2 x 3 reference set; the query set, when one is loaded, is 2 x 4. -/
def refData : Allknn.Datasets :=
  { refRows := 2, refCols := 3, queryRows := 2, queryCols := 4 }

/-- An empty (2 x 0) reference set. -/
def emptyRefData : Allknn.Datasets :=
  { refRows := 2, refCols := 0, queryRows := 2, queryCols := 4 }

/-- A 2 x 3 reference set with a 5 x 4 query set: a dimension mismatch. -/
def mismatchData : Allknn.Datasets :=
  { refRows := 2, refCols := 3, queryRows := 5, queryCols := 4 }

/-- fastmks invocation `--k 0` with the default kernel and parameters. -/
def fastmksKZero : Fastmks.Options :=
  { k := 0, naive := false, single := false, base := 2.0, kernel := "linear",
    degree := 2.0, offset := 0.0, bandwidth := 1.0, scale := 1.0,
    hasQueryFile := false }

/-- fastmks invocation `--k 1`. -/
def fastmksKOne : Fastmks.Options := { fastmksKZero with k := 1 }

/-- fastmks invocation `--k 1 --kernel graph`. -/
def fastmksGraph : Fastmks.Options := { fastmksKZero with k := 1, kernel := "graph" }

/-- fastmks invocation `--k 0 --naive`. -/
def fastmksNaiveKZero : Fastmks.Options := { fastmksKZero with naive := true }

/-- fastmks invocation `--k 1 --naive`. -/
def fastmksNaive : Fastmks.Options := { fastmksKZero with k := 1, naive := true }

/-- fastmks invocation `--k 1 --naive --single`. -/
def fastmksNaiveSingle : Fastmks.Options :=
  { fastmksKZero with k := 1, naive := true, single := true }

/-- fastmks invocation `--k 1 --query_file ...`. -/
def fastmksWithQuery : Fastmks.Options := { fastmksKZero with k := 1, hasQueryFile := true }

/-- A 2 x 3 reference set; the query set, when one is loaded, is 2 x 4. -/
def fmksData : Fastmks.Datasets :=
  { refRows := 2, refCols := 3, queryRows := 2, queryCols := 4 }

/-- An empty (2 x 0) reference set. -/
def fmksEmptyRefData : Fastmks.Datasets :=
  { refRows := 2, refCols := 0, queryRows := 2, queryCols := 4 }

/-- A 2 x 3 reference set with a 5 x 4 query set: a dimension mismatch. -/
def fmksMismatchData : Fastmks.Datasets :=
  { refRows := 2, refCols := 3, queryRows := 5, queryCols := 4 }

/-- A 2 x 3 reference set whose query file loaded to an empty (0 x 0) matrix. -/
def fmksEmptyQueryData : Fastmks.Datasets :=
  { refRows := 2, refCols := 3, queryRows := 0, queryCols := 0 }

/-! Theorems. -/

theorem mem_naivePairs {m n i j : Nat} :
    (i, j) ∈ naivePairs m n ↔ i < m ∧ j < n := by
  simp only [naivePairs, List.mem_flatMap, List.mem_map, List.mem_range, Prod.mk.injEq]
  constructor
  · rintro ⟨a, ha, b, hb, hai, hbj⟩
    exact ⟨hai ▸ ha, hbj ▸ hb⟩
  · rintro ⟨hi, hj⟩
    exact ⟨i, hi, j, hj, rfl, rfl⟩

/-- A kernel name that reaches one of the seven `RunFastMKS` branches also
passes the kernel-name validation. -/
theorem kernelCheck_of_dispatch {s : String}
    (h : (Fastmks.dispatch s).isSome = true) :
    Fastmks.kernelCheckFatal s = false := by
  unfold Fastmks.dispatch at h
  split_ifs at h with h1 h2 h3 h4 h5 h6 h7
  · exact (eq_of_beq h1) ▸ (by decide)
  · exact (eq_of_beq h2) ▸ (by decide)
  · exact (eq_of_beq h3) ▸ (by decide)
  · exact (eq_of_beq h4) ▸ (by decide)
  · exact (eq_of_beq h5) ▸ (by decide)
  · exact (eq_of_beq h6) ▸ (by decide)
  · exact (eq_of_beq h7) ▸ (by decide)
  · simp at h

/-- C1: the spec claims an invalid k - k = 0 or k greater than the number of
reference points - is always rejected fatally before any search.  The
validation of both programs (allknn_main.cpp 106-113, fastmks_main.cpp
180-186) only tests `k > n_cols`, so `--k 0` passes and the search runs and
produces a (0-row) result; only the upper bound is enforced (last conjunct). -/
theorem C1_k_zero_not_rejected :
    (Allknn.main allknnKZero refData).fatal = none
  ∧ (Allknn.main allknnKZero refData).searched = true
  ∧ (Fastmks.main fastmksKZero fmksData).fatal = none
  ∧ (Fastmks.main fastmksKZero fmksData).searched = true
  ∧ (Allknn.main allknnKFour refData).fatal = some FatalKind.invalidK := by
  refine ⟨rfl, rfl, rfl, rfl, rfl⟩

/-- C2: the spec claims every kernel name outside the seven supported ones is
rejected at the boundary, and that passing validation implies exactly one
supported branch runs a search.  The name "graph" passes the validation of
fastmks_main.cpp lines 188-197 (which also admits "approxGraph" and "inv-mq")
but matches no branch of the else-if chain of lines 225-315, so no search
runs, no error is raised, and the program falls through to saving the
untouched output matrices. -/
theorem C2_graph_kernel_accepted_but_unhandled :
    Fastmks.kernelCheckFatal "graph" = false
  ∧ Fastmks.dispatch "graph" = none
  ∧ (Fastmks.main fastmksGraph fmksData).fatal = none
  ∧ (Fastmks.main fastmksGraph fmksData).searched = false
  ∧ (Fastmks.main fastmksGraph fmksData).kernelBranch = none := by
  refine ⟨by decide, by decide, rfl, rfl, rfl⟩

/-- C3: a loaded query set whose row count differs from the reference set's
is rejected fatally, before any search and with no result produced.  For
fastmks the loaded query set must be non-empty (an empty query matrix selects
self-search at line 225) and a kernel name that reaches a search branch is
assumed; the dimensionality check itself lives in the `Search` members, which
are modelled from the spec (`searchDimMismatch`). -/
theorem C3_dim_mismatch_fatal_before_search :
    (∀ (o : Allknn.Options) (d : Allknn.Datasets),
      o.hasQueryFile = true → d.queryRows ≠ d.refRows →
      (Allknn.main o d).fatal.isSome = true ∧ (Allknn.main o d).searched = false)
  ∧ (∀ (o : Fastmks.Options) (d : Fastmks.Datasets),
      o.hasQueryFile = true → (Fastmks.dispatch o.kernel).isSome = true →
      d.queryRows * d.queryCols ≠ 0 → d.queryRows ≠ d.refRows →
      (Fastmks.main o d).fatal.isSome = true ∧ (Fastmks.main o d).searched = false) := by
  constructor
  · intro o d hq hd
    have hb : searchDimMismatch d.refRows d.queryRows = true := by
      simp [searchDimMismatch, hd]
    by_cases h1 : o.k > d.refCols
    · simp [Allknn.main, h1]
    · by_cases h2 : o.leafSize < 1
      · simp [Allknn.main, h1, h2]
      · cases hnv : o.naive <;> cases hct : o.coverTree <;> cases hrt : o.rTree <;>
          cases hsm : o.singleMode <;>
          simp [Allknn.main, h1, h2, hq, hb, hnv, hct, hrt, hsm]
  · intro o d hq hdisp hne hd
    have hck : Fastmks.kernelCheckFatal o.kernel = false := kernelCheck_of_dispatch hdisp
    obtain ⟨br, hbr⟩ := Option.isSome_iff_exists.mp hdisp
    have hb : searchDimMismatch d.refRows d.queryRows = true := by
      simp [searchDimMismatch, hd]
    have he : (Fastmks.effectiveQueryElems o d == 0) = false := by
      simp [Fastmks.effectiveQueryElems, hq, hne]
    by_cases h1 : o.k > d.refCols
    · simp [Fastmks.main, h1]
    · cases hnv : o.naive <;> cases hs : o.single <;>
        simp [Fastmks.main, Fastmks.RunFastMKSQuery, h1, hck, he, hbr, hb, hnv, hs]

/-- Witness for C3 at a 2 x 3 reference set and a 5 x 4 query set. -/
theorem C3_witness :
    ((Allknn.main allknnDualQuery mismatchData).fatal.isSome = true
      ∧ (Allknn.main allknnDualQuery mismatchData).searched = false)
  ∧ ((Fastmks.main fastmksWithQuery fmksMismatchData).fatal.isSome = true
      ∧ (Fastmks.main fastmksWithQuery fmksMismatchData).searched = false) :=
  ⟨C3_dim_mismatch_fatal_before_search.1 allknnDualQuery mismatchData rfl (by decide),
   C3_dim_mismatch_fatal_before_search.2 fastmksWithQuery fmksMismatchData rfl (by decide)
     (by decide) (by decide)⟩

/-- C4 counterexample: the spec claims that every invocation selecting the
cover-tree variant without specifying a base builds the cover tree with base
2.0.  The allknn invocation `--k 1 --cover_tree` selects the cover-tree
variant, offers no base parameter at all, and builds its tree with the
hard-coded base 1.3 (allknn_main.cpp line 313). -/
theorem C4_counterexample :
    (Allknn.main allknnCover refData).coverBase = some (1.3 : Rat)
  ∧ (1.3 : Rat) ≠ 2.0 := by
  refine ⟨rfl, by norm_num⟩

/-- C4 (amended): in fastmks the cover-tree base is a user-configurable
parameter with default 2.0, and every non-naive invocation builds its cover
tree(s) with the configured base (so an invocation that leaves the base at
its default builds with base 2.0); in allknn the cover-tree variant has no
base parameter and always builds with the hard-coded base 1.3. -/
theorem C4_amended_theorem :
    Fastmks.defaultBase = 2.0
  ∧ (∀ (o : Fastmks.Options) (d : Fastmks.Datasets),
      o.k ≤ d.refCols → (Fastmks.dispatch o.kernel).isSome = true →
      o.naive = false →
      (Fastmks.main o d).coverBase = some o.base)
  ∧ (∀ (o : Allknn.Options) (d : Allknn.Datasets),
      o.naive = false → o.coverTree = true →
      o.k ≤ d.refCols → 1 ≤ o.leafSize →
      (Allknn.main o d).coverBase = some (1.3 : Rat)) := by
  refine ⟨rfl, ?_, ?_⟩
  · intro o d hk hdisp hnv
    have hck : Fastmks.kernelCheckFatal o.kernel = false := kernelCheck_of_dispatch hdisp
    obtain ⟨br, hbr⟩ := Option.isSome_iff_exists.mp hdisp
    have h1 : ¬ (o.k > d.refCols) := by omega
    by_cases he : Fastmks.effectiveQueryElems o d = 0
    · simp [Fastmks.main, Fastmks.RunFastMKSSelf, h1, hck, he, hbr, hnv]
    · have he' : (Fastmks.effectiveQueryElems o d == 0) = false := by simp [he]
      cases hs : o.single <;>
        simp [Fastmks.main, Fastmks.RunFastMKSQuery, h1, hck, he', hbr, hnv, hs] <;>
        split_ifs <;> rfl
  · intro o d hnv hct hk hl
    have h1 : ¬ (o.k > d.refCols) := by omega
    have h2 : ¬ (o.leafSize < 1) := by omega
    by_cases hqf : o.hasQueryFile = true
    · cases hsm : o.singleMode <;>
        simp [Allknn.main, h1, h2, hnv, hct, hqf, hsm] <;>
        split_ifs <;> rfl
    · simp [Allknn.main, h1, h2, hnv, hct, hqf]

/-- Witness for C4's amended claim: fastmks with the base left at its default
builds with base 2.0, allknn's cover-tree variant builds with base 1.3. -/
theorem C4_witness :
    (Fastmks.main fastmksKOne fmksData).coverBase = some Fastmks.defaultBase
  ∧ (Allknn.main allknnCover refData).coverBase = some (1.3 : Rat) :=
  ⟨C4_amended_theorem.2.1 fastmksKOne fmksData (by decide) (by decide) rfl,
   C4_amended_theorem.2.2 allknnCover refData rfl rfl (by decide) (by decide)⟩

/-- C5: when both naive mode and single-tree mode are requested (and the
invocation passes validation and would reach a search), the non-fatal
warning that the single-tree flag is ignored is logged, and the search that
runs is the naive one. -/
theorem C5_naive_overrides_single :
    (∀ (o : Allknn.Options) (d : Allknn.Datasets),
      o.naive = true → o.singleMode = true →
      o.k ≤ d.refCols → 1 ≤ o.leafSize →
      (o.hasQueryFile = true → d.queryRows = d.refRows) →
      WarnKind.singleModeIgnored ∈ (Allknn.main o d).warnings
      ∧ (Allknn.main o d).mode = some Mode.naive)
  ∧ (∀ (o : Fastmks.Options) (d : Fastmks.Datasets),
      o.naive = true → o.single = true →
      o.k ≤ d.refCols → (Fastmks.dispatch o.kernel).isSome = true →
      (Fastmks.effectiveQueryElems o d ≠ 0 → d.queryRows = d.refRows) →
      WarnKind.singleIgnored ∈ (Fastmks.main o d).warnings
      ∧ (Fastmks.main o d).mode = some Mode.naive) := by
  constructor
  · intro o d hnv hsm hk hl hq
    have h1 : ¬ (o.k > d.refCols) := by omega
    have h2 : ¬ (o.leafSize < 1) := by omega
    by_cases hqf : o.hasQueryFile = true
    · have hqq : d.queryRows = d.refRows := hq hqf
      simp [Allknn.main, Allknn.loggedWarnings, searchDimMismatch, h1, h2, hnv, hsm, hqf, hqq]
    · simp [Allknn.main, Allknn.loggedWarnings, h1, h2, hnv, hsm, hqf]
  · intro o d hnv hs hk hdisp hq
    have hck : Fastmks.kernelCheckFatal o.kernel = false := kernelCheck_of_dispatch hdisp
    obtain ⟨br, hbr⟩ := Option.isSome_iff_exists.mp hdisp
    have h1 : ¬ (o.k > d.refCols) := by omega
    by_cases he : Fastmks.effectiveQueryElems o d = 0
    · simp [Fastmks.main, Fastmks.RunFastMKSSelf, Fastmks.loggedWarnings,
        h1, hck, he, hbr, hnv, hs]
    · have he' : (Fastmks.effectiveQueryElems o d == 0) = false := by simp [he]
      have hqq : d.queryRows = d.refRows := hq he
      simp [Fastmks.main, Fastmks.RunFastMKSQuery, Fastmks.loggedWarnings,
        searchDimMismatch, h1, hck, he', hbr, hnv, hs, hqq]

/-- Witness for C5: `--naive --single_mode` / `--naive --single`. -/
theorem C5_witness :
    (WarnKind.singleModeIgnored ∈ (Allknn.main allknnNaiveSingle refData).warnings
      ∧ (Allknn.main allknnNaiveSingle refData).mode = some Mode.naive)
  ∧ (WarnKind.singleIgnored ∈ (Fastmks.main fastmksNaiveSingle fmksData).warnings
      ∧ (Fastmks.main fastmksNaiveSingle fmksData).mode = some Mode.naive) :=
  ⟨C5_naive_overrides_single.1 allknnNaiveSingle refData rfl rfl (by decide) (by decide)
     (fun _ => rfl),
   C5_naive_overrides_single.2 fastmksNaiveSingle fmksData rfl rfl (by decide) (by decide)
     (fun _ => rfl)⟩

/-- C6: in naive mode (with the invocation passing validation and the query
set, if any, dimensionally compatible) no spatial tree is constructed - the
search object is built directly from the raw point matrices - and every
query x reference pair is evaluated directly (the all-pairs evaluation is
modelled from the spec as `naivePairs`). -/
theorem C6_naive_builds_no_tree :
    (∀ (o : Allknn.Options) (d : Allknn.Datasets),
      o.naive = true → o.k ≤ d.refCols → 1 ≤ o.leafSize →
      (o.hasQueryFile = true → d.queryRows = d.refRows) →
      (Allknn.main o d).treesBuilt = 0
      ∧ (Allknn.main o d).searchFromRawMatrix = true
      ∧ (Allknn.main o d).evaluatedPairs
          = some (naivePairs (Allknn.numQueries o d) d.refCols)
      ∧ ∀ i j, i < Allknn.numQueries o d → j < d.refCols →
          (i, j) ∈ naivePairs (Allknn.numQueries o d) d.refCols)
  ∧ (∀ (o : Fastmks.Options) (d : Fastmks.Datasets),
      o.naive = true → o.k ≤ d.refCols →
      (Fastmks.dispatch o.kernel).isSome = true →
      (Fastmks.effectiveQueryElems o d ≠ 0 → d.queryRows = d.refRows) →
      (Fastmks.main o d).treesBuilt = 0
      ∧ (Fastmks.main o d).searchFromRawMatrix = true
      ∧ (Fastmks.main o d).evaluatedPairs
          = some (naivePairs (Fastmks.numQueries o d) d.refCols)
      ∧ ∀ i j, i < Fastmks.numQueries o d → j < d.refCols →
          (i, j) ∈ naivePairs (Fastmks.numQueries o d) d.refCols) := by
  constructor
  · intro o d hnv hk hl hq
    have h1 : ¬ (o.k > d.refCols) := by omega
    have h2 : ¬ (o.leafSize < 1) := by omega
    refine ⟨?_, ?_, ?_, fun i j hi hj => mem_naivePairs.mpr ⟨hi, hj⟩⟩ <;>
      by_cases hqf : o.hasQueryFile = true
    · simp [Allknn.main, searchDimMismatch, h1, h2, hnv, hqf, hq hqf]
    · simp [Allknn.main, h1, h2, hnv, hqf]
    · simp [Allknn.main, searchDimMismatch, h1, h2, hnv, hqf, hq hqf]
    · simp [Allknn.main, h1, h2, hnv, hqf]
    · simp [Allknn.main, Allknn.numQueries, searchDimMismatch, h1, h2, hnv, hqf, hq hqf]
    · simp [Allknn.main, Allknn.numQueries, h1, h2, hnv, hqf]
  · intro o d hnv hk hdisp hq
    have hck : Fastmks.kernelCheckFatal o.kernel = false := kernelCheck_of_dispatch hdisp
    obtain ⟨br, hbr⟩ := Option.isSome_iff_exists.mp hdisp
    have h1 : ¬ (o.k > d.refCols) := by omega
    refine ⟨?_, ?_, ?_, fun i j hi hj => mem_naivePairs.mpr ⟨hi, hj⟩⟩ <;>
      by_cases he : Fastmks.effectiveQueryElems o d = 0
    · simp [Fastmks.main, Fastmks.RunFastMKSSelf, h1, hck, he, hbr, hnv]
    · have he' : (Fastmks.effectiveQueryElems o d == 0) = false := by simp [he]
      simp [Fastmks.main, Fastmks.RunFastMKSQuery, searchDimMismatch,
        h1, hck, he', hbr, hnv, hq he]
    · simp [Fastmks.main, Fastmks.RunFastMKSSelf, h1, hck, he, hbr, hnv]
    · have he' : (Fastmks.effectiveQueryElems o d == 0) = false := by simp [he]
      simp [Fastmks.main, Fastmks.RunFastMKSQuery, searchDimMismatch,
        h1, hck, he', hbr, hnv, hq he]
    · simp [Fastmks.main, Fastmks.RunFastMKSSelf, Fastmks.numQueries,
        h1, hck, he, hbr, hnv]
    · have he' : (Fastmks.effectiveQueryElems o d == 0) = false := by simp [he]
      simp [Fastmks.main, Fastmks.RunFastMKSQuery, Fastmks.numQueries, searchDimMismatch,
        h1, hck, he', hbr, hnv, hq he]

/-- Witness for C6: `--k 1 --naive` on a 2 x 3 reference set. -/
theorem C6_witness :
    ((Allknn.main allknnNaive refData).treesBuilt = 0
      ∧ (Allknn.main allknnNaive refData).searchFromRawMatrix = true
      ∧ (1, 2) ∈ naivePairs (Allknn.numQueries allknnNaive refData) refData.refCols)
  ∧ ((Fastmks.main fastmksNaive fmksData).treesBuilt = 0
      ∧ (Fastmks.main fastmksNaive fmksData).searchFromRawMatrix = true) :=
  ⟨⟨(C6_naive_builds_no_tree.1 allknnNaive refData rfl (by decide) (by decide)
       (fun _ => rfl)).1,
    (C6_naive_builds_no_tree.1 allknnNaive refData rfl (by decide) (by decide)
       (fun _ => rfl)).2.1,
    (C6_naive_builds_no_tree.1 allknnNaive refData rfl (by decide) (by decide)
       (fun _ => rfl)).2.2.2 1 2 (by decide) (by decide)⟩,
   ⟨(C6_naive_builds_no_tree.2 fastmksNaive fmksData rfl (by decide) (by decide)
       (fun _ => rfl)).1,
    (C6_naive_builds_no_tree.2 fastmksNaive fmksData rfl (by decide) (by decide)
       (fun _ => rfl)).2.1⟩⟩

/-- C7: on the kd-tree path of allknn (no naive, cover-tree or R*-tree flag;
invocation passing validation; query set, if any, compatible), the `Unmap`
remapper is applied in exactly the three configuration cases: dual-tree
search with a query file applies the reference and the query permutation
maps; single-tree search with a query file applies the reference map only;
search without a query file applies the reference map to both sides. -/
theorem C7_unmap_three_cases :
    ∀ (o : Allknn.Options) (d : Allknn.Datasets),
      o.naive = false → o.coverTree = false → o.rTree = false →
      o.k ≤ d.refCols → 1 ≤ o.leafSize →
      (o.hasQueryFile = true → d.queryRows = d.refRows) →
      ((o.hasQueryFile = true → o.singleMode = false →
          (Allknn.main o d).unmap = some UnmapCase.refAndQuery)
      ∧ (o.hasQueryFile = true → o.singleMode = true →
          (Allknn.main o d).unmap = some UnmapCase.refOnly)
      ∧ (o.hasQueryFile = false →
          (Allknn.main o d).unmap = some UnmapCase.refBothSides)) := by
  intro o d hnv hct hrt hk hl hq
  have h1 : ¬ (o.k > d.refCols) := by omega
  have h2 : ¬ (o.leafSize < 1) := by omega
  refine ⟨fun hqf hsm => ?_, fun hqf hsm => ?_, fun hqf => ?_⟩
  · simp [Allknn.main, searchDimMismatch, h1, h2, hnv, hct, hrt, hqf, hsm, hq hqf]
  · simp [Allknn.main, searchDimMismatch, h1, h2, hnv, hct, hrt, hqf, hsm, hq hqf]
  · simp [Allknn.main, h1, h2, hnv, hct, hrt, hqf]

/-- Witness for C7: dual-tree kd search with a query file. -/
theorem C7_witness :
    (Allknn.main allknnDualQuery refData).unmap = some UnmapCase.refAndQuery :=
  (C7_unmap_three_cases allknnDualQuery refData rfl rfl rfl (by decide) (by decide)
    (fun _ => rfl)).1 rfl rfl

/-- C8 counterexample: the spec claims an empty reference set aborts fatally
before any search for every value of k.  The naive invocations `--k 0
--naive` on an empty (2 x 0) reference set pass the only gate (`k > n_cols`
is 0 > 0, false), build no tree at all - the naive branches of both mains
skip index construction entirely, so no out-of-repository tree constructor
is ever reached - and the (vacuous) search runs. -/
theorem C8_counterexample :
    ((Allknn.main allknnNaiveKZero emptyRefData).fatal = none
      ∧ (Allknn.main allknnNaiveKZero emptyRefData).treesBuilt = 0
      ∧ (Allknn.main allknnNaiveKZero emptyRefData).searched = true)
  ∧ ((Fastmks.main fastmksNaiveKZero fmksEmptyRefData).fatal = none
      ∧ (Fastmks.main fastmksNaiveKZero fmksEmptyRefData).treesBuilt = 0
      ∧ (Fastmks.main fastmksNaiveKZero fmksEmptyRefData).searched = true) := by
  refine ⟨⟨rfl, rfl, rfl⟩, rfl, rfl, rfl⟩

/-- C8 (amended): for an empty reference set and every k other than 0, both
programs abort fatally before any search - the k sanity check fires, since
k > 0 = number of reference points.  With k = 0 the validation passes, and
in naive mode - which builds no tree at all - no abort occurs and the search
proceeds on the empty set.  The tree-building paths with k = 0 reach tree
construction on the empty point set, whose fatal ConstructionError (spec
sections 4.1 and 7b) is implemented outside this repository and is not
settled here. -/
theorem C8_amended_theorem :
    (∀ (o : Allknn.Options) (d : Allknn.Datasets), d.refCols = 0 → o.k ≠ 0 →
      (Allknn.main o d).fatal = some FatalKind.invalidK
      ∧ (Allknn.main o d).searched = false)
  ∧ (∀ (o : Fastmks.Options) (d : Fastmks.Datasets), d.refCols = 0 → o.k ≠ 0 →
      (Fastmks.main o d).fatal = some FatalKind.invalidK
      ∧ (Fastmks.main o d).searched = false)
  ∧ (∀ (o : Allknn.Options) (d : Allknn.Datasets),
      d.refCols = 0 → o.k = 0 → o.naive = true → 1 ≤ o.leafSize →
      o.hasQueryFile = false →
      (Allknn.main o d).fatal = none ∧ (Allknn.main o d).treesBuilt = 0
      ∧ (Allknn.main o d).searched = true)
  ∧ (∀ (o : Fastmks.Options) (d : Fastmks.Datasets),
      d.refCols = 0 → o.k = 0 → o.naive = true →
      (Fastmks.dispatch o.kernel).isSome = true → o.hasQueryFile = false →
      (Fastmks.main o d).fatal = none ∧ (Fastmks.main o d).treesBuilt = 0
      ∧ (Fastmks.main o d).searched = true) := by
  refine ⟨?_, ?_, ?_, ?_⟩
  · intro o d h0 hk
    have h1 : o.k > d.refCols := by omega
    simp [Allknn.main, h1]
  · intro o d h0 hk
    have h1 : o.k > d.refCols := by omega
    simp [Fastmks.main, h1]
  · intro o d h0 hk0 hnv hl hqf
    have h1 : ¬ (o.k > d.refCols) := by omega
    have h2 : ¬ (o.leafSize < 1) := by omega
    simp [Allknn.main, h1, h2, hnv, hqf]
  · intro o d h0 hk0 hnv hdisp hqf
    have hck : Fastmks.kernelCheckFatal o.kernel = false := kernelCheck_of_dispatch hdisp
    obtain ⟨br, hbr⟩ := Option.isSome_iff_exists.mp hdisp
    have h1 : ¬ (o.k > d.refCols) := by omega
    have he : Fastmks.effectiveQueryElems o d = 0 := by
      simp [Fastmks.effectiveQueryElems, hqf]
    simp [Fastmks.main, Fastmks.RunFastMKSSelf, h1, hck, he, hbr, hnv]

/-- Witness for C8's amended claim: `--k 1` aborts on an empty reference set,
`--k 0 --naive` proceeds on it, in both programs. -/
theorem C8_witness :
    ((Allknn.main allknnKOne emptyRefData).fatal = some FatalKind.invalidK
      ∧ (Allknn.main allknnKOne emptyRefData).searched = false)
  ∧ ((Fastmks.main fastmksKOne fmksEmptyRefData).fatal = some FatalKind.invalidK
      ∧ (Fastmks.main fastmksKOne fmksEmptyRefData).searched = false)
  ∧ ((Allknn.main allknnNaiveKZero emptyRefData).fatal = none
      ∧ (Allknn.main allknnNaiveKZero emptyRefData).searched = true)
  ∧ ((Fastmks.main fastmksNaiveKZero fmksEmptyRefData).fatal = none
      ∧ (Fastmks.main fastmksNaiveKZero fmksEmptyRefData).searched = true) :=
  ⟨C8_amended_theorem.1 allknnKOne emptyRefData rfl (by decide),
   C8_amended_theorem.2.1 fastmksKOne fmksEmptyRefData rfl (by decide),
   (fun h => ⟨h.1, h.2.2⟩)
     (C8_amended_theorem.2.2.1 allknnNaiveKZero emptyRefData rfl rfl rfl
       (by decide) rfl),
   (fun h => ⟨h.1, h.2.2⟩)
     (C8_amended_theorem.2.2.2 fastmksNaiveKZero fmksEmptyRefData rfl rfl rfl
       (by decide) rfl)⟩

/-- C9: in allknn (invocation passing validation; query set, if any,
compatible) the results are remapped through `Unmap` exactly when the kd-tree
path runs, i.e. when none of the naive, cover-tree and R*-tree flags is set;
the cover-tree, R*-tree and naive paths save the `Search` output directly. -/
theorem C9_only_kd_path_unmaps :
    ∀ (o : Allknn.Options) (d : Allknn.Datasets),
      o.k ≤ d.refCols → 1 ≤ o.leafSize →
      (o.hasQueryFile = true → d.queryRows = d.refRows) →
      ((Allknn.main o d).unmap.isSome = true
        ↔ (o.naive = false ∧ o.coverTree = false ∧ o.rTree = false)) := by
  intro o d hk hl hq
  have h1 : ¬ (o.k > d.refCols) := by omega
  have h2 : ¬ (o.leafSize < 1) := by omega
  by_cases hqf : o.hasQueryFile = true
  · have hqq : d.queryRows = d.refRows := hq hqf
    cases hnv : o.naive <;> cases hct : o.coverTree <;> cases hrt : o.rTree <;>
      cases hsm : o.singleMode <;>
      simp [Allknn.main, searchDimMismatch, h1, h2, hqf, hqq, hnv, hct, hrt, hsm]
  · cases hnv : o.naive <;> cases hct : o.coverTree <;> cases hrt : o.rTree <;>
      cases hsm : o.singleMode <;>
      simp [Allknn.main, h1, h2, hqf, hnv, hct, hrt, hsm]

/-- Witness for C9: the kd-tree path unmaps, the cover-tree path does not. -/
theorem C9_witness :
    ((Allknn.main allknnKOne refData).unmap.isSome = true
      ↔ (allknnKOne.naive = false ∧ allknnKOne.coverTree = false
          ∧ allknnKOne.rTree = false))
  ∧ ((Allknn.main allknnCover refData).unmap.isSome = true
      ↔ (allknnCover.naive = false ∧ allknnCover.coverTree = false
          ∧ allknnCover.rTree = false)) :=
  ⟨C9_only_kd_path_unmaps allknnKOne refData (by decide) (by decide) (fun _ => rfl),
   C9_only_kd_path_unmaps allknnCover refData (by decide) (by decide) (fun _ => rfl)⟩

/-- C10: in fastmks (invocation passing validation and reaching a search
branch) the choice between self-search and separate-query search is decided
by `queryData.n_elem == 0` (line 225), not by whether a query file was
supplied: in particular a query file that loads to an empty matrix makes the
reference set be searched against itself. -/
theorem C10_self_search_decided_by_elems :
    ∀ (o : Fastmks.Options) (d : Fastmks.Datasets),
      o.k ≤ d.refCols → (Fastmks.dispatch o.kernel).isSome = true →
      ((Fastmks.main o d).selfQuery = (Fastmks.effectiveQueryElems o d == 0)
      ∧ (o.hasQueryFile = true → Fastmks.effectiveQueryElems o d = 0 →
          (Fastmks.main o d).selfQuery = true)) := by
  intro o d hk hdisp
  have hck : Fastmks.kernelCheckFatal o.kernel = false := kernelCheck_of_dispatch hdisp
  obtain ⟨br, hbr⟩ := Option.isSome_iff_exists.mp hdisp
  have h1 : ¬ (o.k > d.refCols) := by omega
  have hmain : (Fastmks.main o d).selfQuery = (Fastmks.effectiveQueryElems o d == 0) := by
    by_cases he : Fastmks.effectiveQueryElems o d = 0
    · cases hnv : o.naive <;>
        simp [Fastmks.main, Fastmks.RunFastMKSSelf, h1, hck, he, hbr, hnv]
    · have he' : (Fastmks.effectiveQueryElems o d == 0) = false := by simp [he]
      cases hnv : o.naive <;> cases hs : o.single <;>
        simp only [Fastmks.main, Fastmks.RunFastMKSQuery, h1, hck, he', hbr, hnv, hs,
          if_false, if_true, Bool.false_eq_true, Bool.true_eq_false] <;>
        split_ifs <;> simp
  exact ⟨hmain, fun _ he => by rw [hmain, he]; rfl⟩

/-- Witness for C10: a query file whose matrix loaded empty (0 x 0) against a
2 x 3 reference set makes fastmks search the reference set against itself. -/
theorem C10_witness :
    (Fastmks.main fastmksWithQuery fmksEmptyQueryData).selfQuery = true :=
  (C10_self_search_decided_by_elems fastmksWithQuery fmksEmptyQueryData
    (by decide) (by decide)).2 rfl rfl
